import Mathlib

/-!
Shallow embedding of `Source/Core/CustomProjection.js`: a map-projection
adapter that loads external `project`/`unproject` functions from a module at
a URL, caches the loaded factory per projection name, and gates the
`project`/`unproject` operations behind a readiness flag.

External collaborators of the file (`Check`, `getAbsoluteUri`, the `when`
deferred library, the `Cartesian3`/`Cartographic` value types) are repository
code that is not part of the sources under verification; they are modelled
from the specification, and each such definition is marked
`Modelled from the spec`.
-/

set_option autoImplicit false

/-- Modelled from the spec: the geographic coordinate value object
(`Source/Core/Cartographic.js`, not under the verified sources): longitude and
latitude in radians and height in meters; its zero-argument constructor
initializes every field to zero.  The claims involve no numeric analysis, so
integers stand in for the JS numbers. -/
structure Cartographic where
  longitude : Int
  latitude : Int
  height : Int
deriving DecidableEq

/-- Modelled from the spec: the planar coordinate value object
(`Source/Core/Cartesian3.js`, not under the verified sources): x, y, z in
meters; its zero-argument constructor initializes every field to zero. -/
structure Cartesian3 where
  x : Int
  y : Int
  z : Int
deriving DecidableEq

/-- Modelled from the spec: the ellipsoid is a pass-through configuration
value with no behavior in this core; `Ellipsoid.WGS84` is the default. -/
inductive Ellipsoid where
  | wgs84
  | other (id : Nat)
deriving DecidableEq

/-- A custom `project` function supplied by the external module: it receives
the input cartographic and the result object it must write, and the model
returns the value the result object holds afterwards. -/
abbrev ProjFn := Cartographic → Cartesian3 → Cartesian3

/-- A custom `unproject` function supplied by the external module. -/
abbrev UnprojFn := Cartesian3 → Cartographic → Cartographic

/-- The external module's `createProjectionFunctions` factory, modelled by
the (possibly empty, possibly repeated) sequence of invocations it performs
on the completion callback it is handed, each invocation carrying a
`project`/`unproject` pair. -/
abbrev Factory := List (ProjFn × UnprojFn)

/-- The module-level `loadedProjectionFunctions` cache: projection name to
factory, newest binding first (an association-list write shadows the older
binding, matching a JS property overwrite). -/
abbrev Cache := List (String × Factory)

/-- JS exception values relevant to the embedded code paths. -/
inductive JsError where
  | developerError (message : String)
  | typeError (message : String)
  | referenceError (message : String)
  | fetchError
deriving DecidableEq

/-- Values a readiness promise can resolve with: the adapter instance itself,
or the `undefined` passed by `deferred.resolve()` on the cache-miss path. -/
inductive PromiseVal where
  | selfAdapter
  | undef
deriving DecidableEq

/-- Modelled from the spec: the `when.js` deferred
(`Source/ThirdParty/when.js`, not under the verified sources) is a
single-resolution future with states pending / resolved / rejected, resolved
or rejected at most once; second resolution attempts are no-ops. -/
inductive PromiseState where
  | pending
  | resolved (v : PromiseVal)
  | rejected (e : JsError)
deriving DecidableEq

/-- Modelled from the spec: `deferred.resolve` of `when.js` settles a pending
deferred and is a no-op on an already settled one. -/
def resolveDeferred (p : PromiseState) (v : PromiseVal) : PromiseState :=
  match p with
  | .pending => .resolved v
  | _ => p

/-- Observable load activity performed by `buildCustomProjection`, in
program order. -/
inductive Event where
  | fetchJsonp (url : String)
  | importScripts (url : String)
  | cacheStore (name : String)
  | factoryInvoke
deriving DecidableEq, BEq

/-- The adapter state: the fields assigned by the `CustomProjection`
constructor (lines 43-59 of the source). -/
structure CustomProjection where
  _ellipsoid : Ellipsoid
  _project : Option ProjFn
  _unproject : Option UnprojFn
  _projectionName : String
  _url : String
  _ready : Bool
  _readyPromise : PromiseState

/-- The ambient execution environment of one construction: the document base
URI, whether the code runs inside a worker (`WorkerGlobalScope`), whether the
fetch or import of the module succeeds, and the factory the module registers
in the well-known global slot `createProjectionFunctions` once its code has
executed (`none` models a malformed module that registers nothing). -/
structure Env where
  baseUri : String
  isWorker : Bool
  fetchOk : Bool
  registeredFactory : Option Factory

/-- A mutable JS object with identity: the identity tag distinguishes the
caller-supplied result object from a freshly allocated one. -/
structure ObjRef (α : Type) where
  id : Nat
  val : α
deriving DecidableEq

/-- Decides whether the pattern list is an initial segment of the other. -/
def seqStarts {α : Type} [DecidableEq α] : List α → List α → Bool
  | _, [] => true
  | [], _ :: _ => false
  | a :: hay, b :: nd => if a = b then seqStarts hay nd else false

/-- Decides whether the pattern list occurs contiguously in the other. -/
def seqContains {α : Type} [DecidableEq α] : List α → List α → Bool
  | [], needle => needle.isEmpty
  | a :: rest, needle => seqStarts (a :: rest) needle || seqContains rest needle

/-- Whether a URI already carries a scheme (contains "://"). -/
def hasScheme (uri : String) : Bool :=
  seqContains uri.toList (String.toList "://")

/-- Modelled from the spec: `getAbsoluteUri` (`Source/Core/getAbsoluteUri.js`,
not under the verified sources) resolves a possibly relative URL against the
document base; the spec only requires that the result is the absolute form of
the given url. -/
def getAbsoluteUri (baseUri : String) (uri : String) : String :=
  if hasScheme uri then uri else baseUri ++ "/" ++ uri

/-- Modelled from the spec: `Check.typeOf.string` (`Source/Core/Check.js`,
not under the verified sources); the spec says construction "validates `url`
and `projectionName` are non-empty text" and that a missing or empty value is
surfaced synchronously as a programming-error signal. -/
def checkTypeOfString (name : String) (value : Option String) : Except JsError String :=
  match value with
  | none => .error (.developerError ("Expected " ++ name ++ " to be typeof string."))
  | some s =>
    match s.isEmpty with
    | true => .error (.developerError ("Expected " ++ name ++ " to be a non-empty string."))
    | false => .ok s

/-- Modelled from the spec: `Check.defined` (`Source/Core/Check.js`, not
under the verified sources) is a simple precondition check that the value is
supplied, throwing a `DeveloperError` otherwise. -/
def checkDefined {α : Type} (name : String) (value : Option α) : Except JsError α :=
  match value with
  | none => .error (.developerError ("Expected " ++ name ++ " to be defined."))
  | some v => .ok v

/-- The message of the `DeveloperError` thrown by `project` and `unproject`
when the adapter is not yet ready (source lines 152 and 179). -/
def notLoadedMessage : String :=
  "CustomProjection is not loaded. User CustomProjection.readyPromise or wait for CustomProjection.ready to be true."

/-- The completion callback handed to a factory (source lines 196-201 and
219-224): each invocation stores the received pair onto the adapter, flips
`_ready` to true, and resolves the deferred with `v` (the adapter on the
cache-hit path, `undefined` on the cache-miss path); a second resolution is a
no-op. -/
def runCallbacks : Factory → CustomProjection → PromiseState → PromiseVal →
    CustomProjection × PromiseState
  | [], cp, p, _ => (cp, p)
  | (pf, uf) :: rest, cp, p, v =>
    runCallbacks rest
      { cp with _project := some pf, _unproject := some uf, _ready := true }
      (resolveDeferred p v) v

/-- Result of `buildCustomProjection`: the adapter after the build, the cache
after the build, the state of the promise the build returns, and the load
activity performed. -/
structure BuildResult where
  cp : CustomProjection
  cache : Cache
  promise : PromiseState
  events : List Event

/-- The continuation chained after the fetch (source lines 215-230): read the
registered `createProjectionFunctions` from the global slot (a missing slot
raises a `ReferenceError`, rejecting the chain), store it into the cache
under the projection name, invoke it with the completion callback, and map
the deferred's resolution to the adapter instance. -/
def fetchContinuation (cache : Cache) (customProjection : CustomProjection)
    (projectionName : String) (registered : Option Factory)
    (fetchEvents : List Event) : BuildResult :=
  match registered with
  | none =>
    { cp := customProjection
      cache := cache
      promise := .rejected (.referenceError "createProjectionFunctions is not defined")
      events := fetchEvents }
  | some localCreateProjectionFunctions =>
    { cp := (runCallbacks localCreateProjectionFunctions customProjection .pending .undef).1
      cache := (projectionName, localCreateProjectionFunctions) :: cache
      promise := chainResult (runCallbacks localCreateProjectionFunctions customProjection .pending .undef).2
      events := fetchEvents ++ [Event.cacheStore projectionName, Event.factoryInvoke] }
where
  /-- The final `.then(function() { return customProjection; })` of the
  chain: a resolution (with `undefined`) becomes a resolution with the
  adapter; pending stays pending. -/
  chainResult : PromiseState → PromiseState
    | .resolved _ => .resolved .selfAdapter
    | p => p

/-- `buildCustomProjection` (source lines 192-233). On a cache hit the cached
factory is invoked directly with the completion callback and the deferred is
returned.  On a miss, the module is imported (worker context) or fetched
(host context), and the continuation stores and invokes the registered
factory.  A synchronously thrown `importScripts` failure is the `.error`
case. -/
def buildCustomProjection (env : Env) (cache : Cache)
    (customProjection : CustomProjection) (url projectionName : String) :
    Except JsError BuildResult :=
  match List.lookup projectionName cache with
  | some cachedFactory =>
    .ok
      { cp := (runCallbacks cachedFactory customProjection .pending .selfAdapter).1
        cache := cache
        promise := (runCallbacks cachedFactory customProjection .pending .selfAdapter).2
        events := [Event.factoryInvoke] }
  | none =>
    if env.isWorker then
      if env.fetchOk then
        .ok (fetchContinuation cache customProjection projectionName env.registeredFactory
          [Event.importScripts url])
      else
        .error JsError.fetchError
    else
      if env.fetchOk then
        .ok (fetchContinuation cache customProjection projectionName env.registeredFactory
          [Event.fetchJsonp url])
      else
        .ok
          { cp := customProjection
            cache := cache
            promise := .rejected JsError.fetchError
            events := [Event.fetchJsonp url] }

/-- The field initialization of the `CustomProjection` constructor (source
lines 47-57), before `buildCustomProjection` runs. -/
def initCustomProjection (ellipsoid : Option Ellipsoid)
    (projectionName absoluteUrl : String) : CustomProjection :=
  { _ellipsoid := ellipsoid.getD Ellipsoid.wgs84
    _project := none
    _unproject := none
    _projectionName := projectionName
    _url := absoluteUrl
    _ready := false
    _readyPromise := PromiseState.pending }

/-- The `CustomProjection` constructor (source lines 43-59): validate the two
strings, resolve the url to absolute form, initialize the fields with
`_ready` false, run the builder, and store the promise it returns as
`_readyPromise`. -/
def customProjectionNew (env : Env) (cache : Cache)
    (url projectionName : Option String) (ellipsoid : Option Ellipsoid) :
    Except JsError (CustomProjection × Cache × List Event) :=
  match checkTypeOfString "url" url with
  | .error e => .error e
  | .ok u =>
    match checkTypeOfString "projectionName" projectionName with
    | .error e => .error e
    | .ok n =>
      match buildCustomProjection env cache
          (initCustomProjection ellipsoid n (getAbsoluteUri env.baseUri u))
          (getAbsoluteUri env.baseUri u) n with
      | .error e => .error e
      | .ok r => .ok ({ r.cp with _readyPromise := r.promise }, r.cache, r.events)

/-- `CustomProjection.prototype.project` (source lines 149-163).  Returns the
adapter (unchanged by the source), the allocation counter, and either the
thrown error or the returned result object. -/
def CustomProjection.project (cp : CustomProjection) (alloc : Nat)
    (cartographic : Option Cartographic) (result : Option (ObjRef Cartesian3)) :
    CustomProjection × Nat × Except JsError (ObjRef Cartesian3) :=
  if cp._ready = false then
    (cp, alloc, .error (.developerError notLoadedMessage))
  else
    match checkDefined "cartographic" cartographic with
    | .error e => (cp, alloc, .error e)
    | .ok carto =>
      let res : ObjRef Cartesian3 :=
        match result with
        | some r => r
        | none => { id := alloc, val := { x := 0, y := 0, z := 0 } }
      let alloc2 : Nat :=
        match result with
        | some _ => alloc
        | none => alloc + 1
      match cp._project with
      | some f => (cp, alloc2, .ok { res with val := f carto res.val })
      | none => (cp, alloc2, .error (.typeError "this._project is not a function"))

/-- `CustomProjection.prototype.unproject` (source lines 176-190). -/
def CustomProjection.unproject (cp : CustomProjection) (alloc : Nat)
    (cartesian : Option Cartesian3) (result : Option (ObjRef Cartographic)) :
    CustomProjection × Nat × Except JsError (ObjRef Cartographic) :=
  if cp._ready = false then
    (cp, alloc, .error (.developerError notLoadedMessage))
  else
    match checkDefined "cartesian" cartesian with
    | .error e => (cp, alloc, .error e)
    | .ok cart =>
      let res : ObjRef Cartographic :=
        match result with
        | some r => r
        | none => { id := alloc, val := { longitude := 0, latitude := 0, height := 0 } }
      let alloc2 : Nat :=
        match result with
        | some _ => alloc
        | none => alloc + 1
      match cp._unproject with
      | some f => (cp, alloc2, .ok { res with val := f cart res.val })
      | none => (cp, alloc2, .error (.typeError "this._unproject is not a function"))

/-- The `ellipsoid` accessor (source lines 70-74). -/
def CustomProjection.ellipsoid (cp : CustomProjection) : Ellipsoid :=
  cp._ellipsoid

/-- The `isEquatorialCylindrical` accessor (source lines 85-89): always
false. -/
def CustomProjection.isEquatorialCylindrical (_cp : CustomProjection) : Bool :=
  false

/-- The `readyPromise` accessor (source lines 105-109). -/
def CustomProjection.readyPromise (cp : CustomProjection) : PromiseState :=
  cp._readyPromise

/-- The `url` accessor (source lines 118-122). -/
def CustomProjection.url (cp : CustomProjection) : String :=
  cp._url

/-- The `projectionName` accessor (source lines 131-135). -/
def CustomProjection.projectionName (cp : CustomProjection) : String :=
  cp._projectionName

/-- The factory a given build invokes, if any: the cached one on a hit,
otherwise the module-registered one when the fetch succeeds. -/
def invokedFactory (env : Env) (cache : Cache) (projectionName : String) :
    Option Factory :=
  match List.lookup projectionName cache with
  | some f => some f
  | none => if env.fetchOk then env.registeredFactory else none

/-- Whether the build's completion callback runs at least once: the invoked
factory exists and performs at least one callback invocation. -/
def callbackInvoked (env : Env) (cache : Cache) (projectionName : String) : Bool :=
  match invokedFactory env cache projectionName with
  | some (_ :: _) => true
  | _ => false

/-- Whether, in an event list, the cache store under `name` happens strictly
before any factory invocation (and a factory invocation does follow). -/
def storeBeforeInvokeB (events : List Event) (name : String) : Bool :=
  match events with
  | [] => false
  | e :: rest =>
    if e = Event.factoryInvoke then false
    else if e = Event.cacheStore name then rest.contains Event.factoryInvoke
    else storeBeforeInvokeB rest name

/-- The error message carried by a JS error value. -/
def errorMessage : JsError → String
  | .developerError m => m
  | .typeError m => m
  | .referenceError m => m
  | .fetchError => ""

/-- Whether an error's message mentions the given text. -/
def messageMentions (e : JsError) (s : String) : Bool :=
  seqContains (errorMessage e).toList s.toList

/-- Whether a construction attempt failed with a `DeveloperError`. -/
def isDeveloperError {α : Type} : Except JsError α → Bool
  | .error (.developerError _) => true
  | _ => false

/-- An operation applied to an adapter (with the ambient cache and the
allocation counter): a run of the builder, or a `project`/`unproject` call. -/
inductive Op where
  | buildOp (env : Env) (url name : String)
  | projectOp (cartographic : Option Cartographic) (result : Option (ObjRef Cartesian3))
  | unprojectOp (cartesian : Option Cartesian3) (result : Option (ObjRef Cartographic))

/-- One step of the operation semantics over adapter, cache and allocation
counter.  A thrown build (`.error`) leaves the state unchanged. -/
def applyOp (op : Op) (s : CustomProjection × Cache × Nat) :
    CustomProjection × Cache × Nat :=
  match op with
  | .buildOp env url name =>
    match buildCustomProjection env s.2.1 s.1 url name with
    | .ok r => ({ r.cp with _readyPromise := r.promise }, r.cache, s.2.2)
    | .error _ => s
  | .projectOp c res =>
    ((s.1.project s.2.2 c res).1, s.2.1, (s.1.project s.2.2 c res).2.1)
  | .unprojectOp c res =>
    ((s.1.unproject s.2.2 c res).1, s.2.1, (s.1.unproject s.2.2 c res).2.1)

/-- The sample projection from the source's doc comment: scale longitude and
latitude by the Earth radius, keep the height. -/
def simpleProject : ProjFn := fun cartographic _result =>
  { x := cartographic.longitude * 6378137
    y := cartographic.latitude * 6378137
    z := cartographic.height }

/-- The sample unprojection from the source's doc comment. -/
def simpleUnproject : UnprojFn := fun cartesian _result =>
  { longitude := cartesian.x / 6378137
    latitude := cartesian.y / 6378137
    height := cartesian.z }

/-- A well-behaved factory: invokes its callback exactly once with the
sample pair. -/
def simpleFactory : Factory := [(simpleProject, simpleUnproject)]

/-- A freshly constructed, not yet loaded adapter. -/
def sampleAdapter : CustomProjection :=
  { _ellipsoid := .wgs84
    _project := none
    _unproject := none
    _projectionName := "simpleProjection"
    _url := "https://host/proj.js"
    _ready := false
    _readyPromise := .pending }

/-- The sample adapter after the completion callback wired the sample pair. -/
def readyAdapter : CustomProjection :=
  { sampleAdapter with
    _project := some simpleProject
    _unproject := some simpleUnproject
    _ready := true }

/-- A host (non-worker) environment whose fetch succeeds but whose module
registers nothing. -/
def hostEnv : Env :=
  { baseUri := "https://host", isWorker := false, fetchOk := true, registeredFactory := none }

/-- A host environment whose fetched module registers the sample factory. -/
def loadEnv : Env :=
  { hostEnv with registeredFactory := some simpleFactory }

/-- A cache already holding the sample factory under its name. -/
def cacheWithSimple : Cache := [("simpleProjection", simpleFactory)]

/-- The build result of a cache hit on `cacheWithSimple`. -/
def hitResult : BuildResult :=
  { cp := readyAdapter
    cache := cacheWithSimple
    promise := .resolved .selfAdapter
    events := [Event.factoryInvoke] }

/-- The build result of a cache miss in `loadEnv`. -/
def loadResult : BuildResult :=
  { cp := readyAdapter
    cache := cacheWithSimple
    promise := .resolved .selfAdapter
    events := [Event.fetchJsonp "https://host/proj.js",
               Event.cacheStore "simpleProjection", Event.factoryInvoke] }

/-- The build result of a cache miss in `hostEnv`, whose module registers no
factory. -/
def missResult : BuildResult :=
  { cp := sampleAdapter
    cache := []
    promise := .rejected (.referenceError "createProjectionFunctions is not defined")
    events := [Event.fetchJsonp "https://example.com/proj.js"] }

/-- The adapter produced by constructing against `hostEnv` with a relative
url and an empty cache. -/
def builtSample : CustomProjection :=
  { initCustomProjection none "simpleProjection" "https://host/proj.js" with
    _readyPromise := .rejected (.referenceError "createProjectionFunctions is not defined") }

theorem runCallbacks_ready_mono (calls : Factory) (cp : CustomProjection)
    (p : PromiseState) (v : PromiseVal) (h : cp._ready = true) :
    (runCallbacks calls cp p v).1._ready = true := by
  induction calls generalizing cp p with
  | nil => exact h
  | cons head tail ih =>
    obtain ⟨pf, uf⟩ := head
    simp only [runCallbacks]
    exact ih _ _ rfl

theorem runCallbacks_ready_iff (calls : Factory) (cp : CustomProjection)
    (p : PromiseState) (v : PromiseVal) :
    (runCallbacks calls cp p v).1._ready = true ↔ (cp._ready = true ∨ calls ≠ []) := by
  cases calls with
  | nil => simp [runCallbacks]
  | cons head tail =>
    obtain ⟨pf, uf⟩ := head
    simp only [runCallbacks]
    constructor
    · intro _
      right
      simp
    · intro _
      exact runCallbacks_ready_mono _ _ _ _ rfl

theorem runCallbacks_promise_stable (calls : Factory) (cp : CustomProjection)
    (p : PromiseState) (v : PromiseVal) (h : p ≠ .pending) :
    (runCallbacks calls cp p v).2 = p := by
  induction calls generalizing cp p with
  | nil => rfl
  | cons head tail ih =>
    obtain ⟨pf, uf⟩ := head
    simp only [runCallbacks]
    have hres : resolveDeferred p v = p := by
      cases p with
      | pending => exact absurd rfl h
      | resolved w => rfl
      | rejected e => rfl
    rw [hres]
    exact ih _ _ h

theorem runCallbacks_promise_resolved (calls : Factory) (cp : CustomProjection)
    (v : PromiseVal) (h : calls ≠ []) :
    (runCallbacks calls cp .pending v).2 = .resolved v := by
  cases calls with
  | nil => exact absurd rfl h
  | cons head tail =>
    obtain ⟨pf, uf⟩ := head
    simp only [runCallbacks, resolveDeferred]
    exact runCallbacks_promise_stable _ _ _ _ (by simp)

theorem runCallbacks_url (calls : Factory) (cp : CustomProjection)
    (p : PromiseState) (v : PromiseVal) :
    (runCallbacks calls cp p v).1._url = cp._url := by
  induction calls generalizing cp p with
  | nil => rfl
  | cons head tail ih =>
    obtain ⟨pf, uf⟩ := head
    simp only [runCallbacks]
    exact ih _ _

theorem build_hit (env : Env) (cache : Cache) (cp : CustomProjection)
    (url name : String) (f : Factory) (h : List.lookup name cache = some f) :
    buildCustomProjection env cache cp url name =
      .ok { cp := (runCallbacks f cp .pending .selfAdapter).1
            cache := cache
            promise := (runCallbacks f cp .pending .selfAdapter).2
            events := [Event.factoryInvoke] } := by
  unfold buildCustomProjection
  rw [h]

theorem build_miss_ok (env : Env) (cache : Cache) (cp : CustomProjection)
    (url name : String) (h : List.lookup name cache = none) (hf : env.fetchOk = true) :
    buildCustomProjection env cache cp url name =
      .ok (fetchContinuation cache cp name env.registeredFactory
        [if env.isWorker then Event.importScripts url else Event.fetchJsonp url]) := by
  unfold buildCustomProjection
  rw [h]
  cases hw : env.isWorker <;> simp [hf, hw]

theorem build_miss_fetchFail (env : Env) (cache : Cache) (cp : CustomProjection)
    (url name : String) (h : List.lookup name cache = none)
    (hw : env.isWorker = false) (hf : env.fetchOk = false) :
    buildCustomProjection env cache cp url name =
      .ok { cp := cp
            cache := cache
            promise := .rejected JsError.fetchError
            events := [Event.fetchJsonp url] } := by
  unfold buildCustomProjection
  rw [h]
  simp [hw, hf]

theorem build_workerFail (env : Env) (cache : Cache) (cp : CustomProjection)
    (url name : String) (h : List.lookup name cache = none)
    (hw : env.isWorker = true) (hf : env.fetchOk = false) :
    buildCustomProjection env cache cp url name = .error JsError.fetchError := by
  unfold buildCustomProjection
  rw [h]
  simp [hw, hf]

theorem build_ready_mono (env : Env) (cache : Cache) (cp : CustomProjection)
    (url name : String) (r : BuildResult)
    (hr : buildCustomProjection env cache cp url name = .ok r)
    (h : cp._ready = true) : r.cp._ready = true := by
  cases hlook : List.lookup name cache with
  | some f =>
    rw [build_hit env cache cp url name f hlook] at hr
    injection hr with h2
    subst h2
    exact runCallbacks_ready_mono _ _ _ _ h
  | none =>
    cases hf : env.fetchOk with
    | true =>
      rw [build_miss_ok env cache cp url name hlook hf] at hr
      injection hr with h2
      subst h2
      cases hreg : env.registeredFactory with
      | none =>
        simp only [fetchContinuation]
        exact h
      | some f =>
        simp only [fetchContinuation]
        exact runCallbacks_ready_mono _ _ _ _ h
    | false =>
      cases hw : env.isWorker with
      | true =>
        rw [build_workerFail env cache cp url name hlook hw hf] at hr
        simp at hr
      | false =>
        rw [build_miss_fetchFail env cache cp url name hlook hw hf] at hr
        injection hr with h2
        subst h2
        exact h

theorem build_url (env : Env) (cache : Cache) (cp : CustomProjection)
    (url name : String) (r : BuildResult)
    (hr : buildCustomProjection env cache cp url name = .ok r) :
    r.cp._url = cp._url := by
  cases hlook : List.lookup name cache with
  | some f =>
    rw [build_hit env cache cp url name f hlook] at hr
    injection hr with h2
    subst h2
    exact runCallbacks_url _ _ _ _
  | none =>
    cases hf : env.fetchOk with
    | true =>
      rw [build_miss_ok env cache cp url name hlook hf] at hr
      injection hr with h2
      subst h2
      cases hreg : env.registeredFactory with
      | none => rfl
      | some f =>
        simp only [fetchContinuation]
        exact runCallbacks_url _ _ _ _
    | false =>
      cases hw : env.isWorker with
      | true =>
        rw [build_workerFail env cache cp url name hlook hw hf] at hr
        simp at hr
      | false =>
        rw [build_miss_fetchFail env cache cp url name hlook hw hf] at hr
        injection hr with h2
        subst h2
        rfl

theorem project_state_id (cp : CustomProjection) (alloc : Nat)
    (c : Option Cartographic) (res : Option (ObjRef Cartesian3)) :
    (cp.project alloc c res).1 = cp := by
  unfold CustomProjection.project
  split
  · rfl
  · split
    · rfl
    · dsimp only
      split <;> rfl

theorem unproject_state_id (cp : CustomProjection) (alloc : Nat)
    (c : Option Cartesian3) (res : Option (ObjRef Cartographic)) :
    (cp.unproject alloc c res).1 = cp := by
  unfold CustomProjection.unproject
  split
  · rfl
  · split
    · rfl
    · dsimp only
      split <;> rfl

theorem applyOp_mono (op : Op) (s : CustomProjection × Cache × Nat)
    (h : s.1._ready = true) : (applyOp op s).1._ready = true := by
  cases op with
  | buildOp env url name =>
    cases hb : buildCustomProjection env s.2.1 s.1 url name with
    | ok r =>
      simp only [applyOp, hb]
      exact build_ready_mono _ _ _ _ _ _ hb h
    | error e =>
      simp only [applyOp, hb]
      exact h
  | projectOp c res =>
    simp only [applyOp]
    rw [project_state_id]
    exact h
  | unprojectOp c res =>
    simp only [applyOp]
    rw [unproject_state_id]
    exact h

theorem applyOp_ready_cases (op : Op) (s : CustomProjection × Cache × Nat) :
    (applyOp op s).1._ready = s.1._ready ∨
      (s.1._ready = false ∧ (applyOp op s).1._ready = true) := by
  have key : ∀ (b c : Bool), (c = true → b = true) →
      (b = c ∨ (c = false ∧ b = true)) := by decide
  exact key _ _ (applyOp_mono op s)

/-- C1: for every adapter whose loading-state flag is not yet true, `project`
and `unproject` fail with the not-loaded `DeveloperError`, and the failed
call leaves the adapter state (every field) and the allocation counter
exactly as they were. -/
theorem claim_C1 (cp : CustomProjection) (alloc : Nat)
    (cartographic : Option Cartographic) (cartesian : Option Cartesian3)
    (resultA : Option (ObjRef Cartesian3)) (resultB : Option (ObjRef Cartographic))
    (h : cp._ready = false) :
    cp.project alloc cartographic resultA =
      (cp, alloc, .error (.developerError notLoadedMessage)) ∧
    cp.unproject alloc cartesian resultB =
      (cp, alloc, .error (.developerError notLoadedMessage)) := by
  constructor
  · unfold CustomProjection.project
    rw [h]
    rfl
  · unfold CustomProjection.unproject
    rw [h]
    rfl

/-- C1 witness: a concrete not-ready adapter. -/
theorem claim_C1_witness :
    sampleAdapter._ready = false ∧
    sampleAdapter.project 0 none none =
      (sampleAdapter, 0, .error (.developerError notLoadedMessage)) ∧
    sampleAdapter.unproject 0 none none =
      (sampleAdapter, 0, .error (.developerError notLoadedMessage)) :=
  ⟨rfl, (claim_C1 sampleAdapter 0 none none none none rfl).1,
    (claim_C1 sampleAdapter 0 none none none none rfl).2⟩

/-- C2: when the projection name is already in the cache, the build takes
the cache-hit branch: it performs no fetch and no import event, invokes the
cached factory, and leaves the cache unchanged. -/
theorem claim_C2 (env : Env) (cache : Cache) (cp : CustomProjection)
    (url name : String) (f : Factory) (r : BuildResult)
    (hhit : List.lookup name cache = some f)
    (hr : buildCustomProjection env cache cp url name = .ok r) :
    (∀ u, Event.fetchJsonp u ∉ r.events ∧ Event.importScripts u ∉ r.events) ∧
    Event.factoryInvoke ∈ r.events ∧ r.cache = cache := by
  rw [build_hit env cache cp url name f hhit] at hr
  injection hr with h2
  subst h2
  refine ⟨?_, ?_, rfl⟩
  · intro u
    constructor <;> simp
  · simp

/-- C2 witness: a second adapter built against a cache already holding the
sample factory. -/
theorem claim_C2_witness :
    (Event.fetchJsonp "https://host/proj.js" ∉ hitResult.events ∧
     Event.importScripts "https://host/proj.js" ∉ hitResult.events) ∧
    Event.factoryInvoke ∈ hitResult.events ∧ hitResult.cache = cacheWithSimple := by
  have hc := claim_C2 hostEnv cacheWithSimple sampleAdapter "https://host/proj.js"
    "simpleProjection" simpleFactory hitResult rfl rfl
  exact ⟨hc.1 "https://host/proj.js", hc.2⟩

/-- C3: on both the cache-hit and cache-miss paths, once the completion
callback has supplied the pair (the adapter became ready), the promise the
build returns is resolved with the adapter instance itself; and the deferred
is single-resolution — resolving an already settled deferred is a no-op. -/
theorem claim_C3 (env : Env) (cache : Cache) (cp : CustomProjection)
    (url name : String) (r : BuildResult)
    (h0 : cp._ready = false)
    (hr : buildCustomProjection env cache cp url name = .ok r) :
    (r.cp._ready = true → r.promise = .resolved .selfAdapter) ∧
    (∀ p v, p ≠ .pending → resolveDeferred p v = p) := by
  constructor
  · intro hready
    cases hlook : List.lookup name cache with
    | some f =>
      rw [build_hit env cache cp url name f hlook] at hr
      injection hr with h2
      subst h2
      have hf2 := (runCallbacks_ready_iff f cp .pending .selfAdapter).mp hready
      rcases hf2 with hcp | hne
      · rw [h0] at hcp
        simp at hcp
      · exact runCallbacks_promise_resolved f cp .selfAdapter hne
    | none =>
      cases hf : env.fetchOk with
      | true =>
        rw [build_miss_ok env cache cp url name hlook hf] at hr
        injection hr with h2
        subst h2
        cases hreg : env.registeredFactory with
        | none =>
          rw [hreg] at hready
          simp only [fetchContinuation] at hready
          rw [h0] at hready
          simp at hready
        | some f =>
          rw [hreg] at hready
          simp only [fetchContinuation] at hready ⊢
          have hf2 := (runCallbacks_ready_iff f cp .pending .undef).mp hready
          rcases hf2 with hcp | hne
          · rw [h0] at hcp
            simp at hcp
          · rw [runCallbacks_promise_resolved f cp .undef hne]
            rfl
      | false =>
        cases hw : env.isWorker with
        | true =>
          rw [build_workerFail env cache cp url name hlook hw hf] at hr
          simp at hr
        | false =>
          rw [build_miss_fetchFail env cache cp url name hlook hw hf] at hr
          injection hr with h2
          subst h2
          rw [h0] at hready
          simp at hready
  · intro p v hp
    cases p with
    | pending => exact absurd rfl hp
    | resolved w => rfl
    | rejected e => rfl

/-- C3 witness: the cache-hit build of the sample adapter. -/
theorem claim_C3_witness :
    hitResult.promise = .resolved .selfAdapter ∧
    resolveDeferred (.resolved .undef) .selfAdapter = .resolved .undef := by
  have hc := claim_C3 hostEnv cacheWithSimple sampleAdapter "https://host/proj.js"
    "simpleProjection" hitResult rfl rfl
  exact ⟨hc.1 rfl, hc.2 (.resolved .undef) .selfAdapter (by decide)⟩

/-- C4: constructing with a missing or empty `url` or `projectionName` fails
synchronously with a `DeveloperError` (usage/precondition error). -/
theorem claim_C4 (env : Env) (cache : Cache) (url projectionName : Option String)
    (ellipsoid : Option Ellipsoid)
    (h : url = none ∨ url = some "" ∨ projectionName = none ∨ projectionName = some "") :
    isDeveloperError (customProjectionNew env cache url projectionName ellipsoid) = true := by
  rcases h with h | h | h | h
  · subst h
    rfl
  · subst h
    rfl
  · subst h
    cases url with
    | none => rfl
    | some u =>
      simp only [customProjectionNew, checkTypeOfString]
      cases hu : u.isEmpty <;> rfl
  · subst h
    cases url with
    | none => rfl
    | some u =>
      simp only [customProjectionNew, checkTypeOfString]
      cases hu : u.isEmpty <;> rfl

/-- C4 witness: a construction with a missing url. -/
theorem claim_C4_witness :
    isDeveloperError (customProjectionNew hostEnv [] none (some "simpleProjection") none) = true :=
  claim_C4 hostEnv [] none (some "simpleProjection") none (Or.inl rfl)

/-- C5 (amended): when the fetched module registers no
`createProjectionFunctions` entry point, the readiness promise is rejected —
not left pending — with the missing-entry-point `ReferenceError`; the
rejection does not name the attempted URL or projection name (see the
counterexample). -/
theorem claim_C5 (env : Env) (cache : Cache) (cp : CustomProjection)
    (url name : String) (r : BuildResult)
    (hmiss : List.lookup name cache = none)
    (hfetch : env.fetchOk = true)
    (hreg : env.registeredFactory = none)
    (hr : buildCustomProjection env cache cp url name = .ok r) :
    r.promise = .rejected (.referenceError "createProjectionFunctions is not defined") ∧
    r.promise ≠ .pending := by
  rw [build_miss_ok env cache cp url name hmiss hfetch, hreg] at hr
  injection hr with h2
  subst h2
  exact ⟨rfl, fun hcon => PromiseState.noConfusion hcon⟩

/-- C5 counterexample: at a concrete failed load, the readiness promise is
rejected with a `ReferenceError` whose message mentions neither the attempted
URL nor the projection name, so the rejection does not carry the diagnostic
context the claim describes. -/
theorem claim_C5_counterexample :
    buildCustomProjection hostEnv [] sampleAdapter "https://example.com/proj.js" "myProjection" =
      .ok missResult ∧
    missResult.promise =
      .rejected (.referenceError "createProjectionFunctions is not defined") ∧
    messageMentions (.referenceError "createProjectionFunctions is not defined")
      "https://example.com/proj.js" = false ∧
    messageMentions (.referenceError "createProjectionFunctions is not defined")
      "myProjection" = false :=
  ⟨rfl, rfl, by decide, by decide⟩

/-- C5 witness: the amended theorem applied at the same concrete load. -/
theorem claim_C5_witness :
    missResult.promise =
      .rejected (.referenceError "createProjectionFunctions is not defined") ∧
    missResult.promise ≠ .pending :=
  claim_C5 hostEnv [] sampleAdapter "https://example.com/proj.js" "myProjection"
    missResult rfl rfl rfl rfl

/-- C6: with the adapter ready, supplying a result object to `project` or
`unproject` mutates and returns that exact object (same identity); omitting
it allocates and returns a fresh object of the proper output type,
zero-initialized before the stored function writes it. -/
theorem claim_C6 (cp : CustomProjection) (alloc : Nat) (c : Cartographic)
    (p3 : Cartesian3) (rOut : ObjRef Cartesian3) (gOut : ObjRef Cartographic)
    (f : ProjFn) (g : UnprojFn)
    (hready : cp._ready = true) (hf : cp._project = some f) (hg : cp._unproject = some g) :
    cp.project alloc (some c) (some rOut) =
      (cp, alloc, .ok { rOut with val := f c rOut.val }) ∧
    cp.project alloc (some c) none =
      (cp, alloc + 1, .ok { id := alloc, val := f c { x := 0, y := 0, z := 0 } }) ∧
    cp.unproject alloc (some p3) (some gOut) =
      (cp, alloc, .ok { gOut with val := g p3 gOut.val }) ∧
    cp.unproject alloc (some p3) none =
      (cp, alloc + 1, .ok { id := alloc, val := g p3 { longitude := 0, latitude := 0, height := 0 } }) := by
  refine ⟨?_, ?_, ?_, ?_⟩
  · unfold CustomProjection.project
    rw [hready, hf]
    rfl
  · unfold CustomProjection.project
    rw [hready, hf]
    rfl
  · unfold CustomProjection.unproject
    rw [hready, hg]
    rfl
  · unfold CustomProjection.unproject
    rw [hready, hg]
    rfl

/-- C6 witness: the ready sample adapter on concrete inputs. -/
theorem claim_C6_witness :
    readyAdapter.project 0 (some { longitude := 1, latitude := 2, height := 3 })
        (some { id := 7, val := { x := 9, y := 9, z := 9 } }) =
      (readyAdapter, 0, .ok { id := 7, val := { x := 6378137, y := 12756274, z := 3 } }) ∧
    readyAdapter.project 0 (some { longitude := 1, latitude := 2, height := 3 }) none =
      (readyAdapter, 1, .ok { id := 0, val := { x := 6378137, y := 12756274, z := 3 } }) ∧
    readyAdapter.unproject 0 (some { x := 4, y := 5, z := 6 })
        (some { id := 8, val := { longitude := 9, latitude := 9, height := 9 } }) =
      (readyAdapter, 0, .ok { id := 8, val := { longitude := 0, latitude := 0, height := 6 } }) ∧
    readyAdapter.unproject 0 (some { x := 4, y := 5, z := 6 }) none =
      (readyAdapter, 1, .ok { id := 0, val := { longitude := 0, latitude := 0, height := 6 } }) := by
  have hc := claim_C6 readyAdapter 0 { longitude := 1, latitude := 2, height := 3 }
    { x := 4, y := 5, z := 6 } { id := 7, val := { x := 9, y := 9, z := 9 } }
    { id := 8, val := { longitude := 9, latitude := 9, height := 9 } }
    simpleProject simpleUnproject rfl rfl rfl
  exact ⟨hc.1, hc.2.1, hc.2.2.1, hc.2.2.2⟩

/-- C10: with the adapter ready, `project` on an undefined cartographic and
`unproject` on an undefined cartesian throw the `Check.defined`
`DeveloperError` before any allocation or delegation — for every value of the
stored functions and of the result argument — and leave the state and the
allocation counter unchanged. -/
theorem claim_C10 (cp : CustomProjection) (alloc : Nat)
    (resultA : Option (ObjRef Cartesian3)) (resultB : Option (ObjRef Cartographic))
    (h : cp._ready = true) :
    cp.project alloc none resultA =
      (cp, alloc, .error (.developerError ("Expected " ++ "cartographic" ++ " to be defined."))) ∧
    cp.unproject alloc none resultB =
      (cp, alloc, .error (.developerError ("Expected " ++ "cartesian" ++ " to be defined."))) := by
  constructor
  · unfold CustomProjection.project
    rw [h]
    rfl
  · unfold CustomProjection.unproject
    rw [h]
    rfl

/-- C10 witness: the ready sample adapter with undefined coordinate inputs. -/
theorem claim_C10_witness :
    readyAdapter.project 3 none none =
      (readyAdapter, 3, .error (.developerError "Expected cartographic to be defined.")) ∧
    readyAdapter.unproject 3 none none =
      (readyAdapter, 3, .error (.developerError "Expected cartesian to be defined.")) :=
  claim_C10 readyAdapter 3 none none rfl

/-- C7: the completion callback is the only path to readiness — after a
build that starts not-ready, the flag is true exactly when the invoked
factory ran the callback at least once; a factory that never invokes the
callback leaves the adapter not-ready with the promise still pending (no
timeout); and on the cache-miss path the factory is stored into the cache
before it is invoked. -/
theorem claim_C7 (env : Env) (cache : Cache) (cp : CustomProjection)
    (url name : String) (r : BuildResult)
    (h0 : cp._ready = false)
    (hr : buildCustomProjection env cache cp url name = .ok r) :
    r.cp._ready = callbackInvoked env cache name ∧
    (invokedFactory env cache name = some [] →
      r.cp._ready = false ∧ r.promise = .pending) ∧
    (List.lookup name cache = none → env.fetchOk = true →
      ∀ f, env.registeredFactory = some f →
        storeBeforeInvokeB r.events name = true) := by
  cases hlook : List.lookup name cache with
  | some f =>
    rw [build_hit env cache cp url name f hlook] at hr
    injection hr with h2
    subst h2
    have hinv : invokedFactory env cache name = some f := by
      simp [invokedFactory, hlook]
    refine ⟨?_, ?_, ?_⟩
    · cases f with
      | nil =>
        have hcb : callbackInvoked env cache name = false := by
          simp [callbackInvoked, hinv]
        rw [hcb]
        exact h0
      | cons head tail =>
        have hrdy : (runCallbacks (head :: tail) cp .pending .selfAdapter).1._ready = true :=
          (runCallbacks_ready_iff _ _ _ _).mpr (Or.inr (by simp))
        have hcb : callbackInvoked env cache name = true := by
          simp [callbackInvoked, hinv]
        rw [hcb]
        exact hrdy
    · intro hinv2
      rw [hinv] at hinv2
      injection hinv2 with h3
      subst h3
      exact ⟨h0, rfl⟩
    · intro hnone
      exact absurd hnone (by simp)
  | none =>
    cases hf2 : env.fetchOk with
    | true =>
      rw [build_miss_ok env cache cp url name hlook hf2] at hr
      injection hr with h2
      subst h2
      cases hreg : env.registeredFactory with
      | none =>
        have hinv : invokedFactory env cache name = none := by
          simp [invokedFactory, hlook, hf2, hreg]
        refine ⟨?_, ?_, ?_⟩
        · have hcb : callbackInvoked env cache name = false := by
            simp [callbackInvoked, hinv]
          rw [hcb]
          simp only [fetchContinuation]
          exact h0
        · intro hinv2
          rw [hinv] at hinv2
          exact absurd hinv2 (by simp)
        · intro _ _ f hregf
          exact absurd hregf (by simp)
      | some f =>
        have hinv : invokedFactory env cache name = some f := by
          simp [invokedFactory, hlook, hf2, hreg]
        refine ⟨?_, ?_, ?_⟩
        · simp only [fetchContinuation]
          cases f with
          | nil =>
            have hcb : callbackInvoked env cache name = false := by
              simp [callbackInvoked, hinv]
            rw [hcb]
            exact h0
          | cons head tail =>
            have hrdy : (runCallbacks (head :: tail) cp .pending .undef).1._ready = true :=
              (runCallbacks_ready_iff _ _ _ _).mpr (Or.inr (by simp))
            have hcb : callbackInvoked env cache name = true := by
              simp [callbackInvoked, hinv]
            rw [hcb]
            exact hrdy
        · intro hinv2
          rw [hinv] at hinv2
          injection hinv2 with h3
          subst h3
          simp only [fetchContinuation]
          exact ⟨h0, rfl⟩
        · intro _ _ f2 hregf
          injection hregf with h4
          subst h4
          simp only [fetchContinuation]
          cases hw : env.isWorker <;> simp [storeBeforeInvokeB] <;> rfl
    | false =>
      cases hw : env.isWorker with
      | true =>
        rw [build_workerFail env cache cp url name hlook hw hf2] at hr
        simp at hr
      | false =>
        rw [build_miss_fetchFail env cache cp url name hlook hw hf2] at hr
        injection hr with h2
        subst h2
        have hinv : invokedFactory env cache name = none := by
          simp [invokedFactory, hlook, hf2]
        refine ⟨?_, ?_, ?_⟩
        · have hcb : callbackInvoked env cache name = false := by
            simp [callbackInvoked, hinv]
          rw [hcb]
          exact h0
        · intro hinv2
          rw [hinv] at hinv2
          exact absurd hinv2 (by simp)
        · intro _ hft _ _
          exact absurd hft (by simp)

/-- C7 witness: the cache-hit build (flag equals callback activity) and the
cache-miss build (store precedes invocation). -/
theorem claim_C7_witness :
    hitResult.cp._ready = callbackInvoked hostEnv cacheWithSimple "simpleProjection" ∧
    storeBeforeInvokeB loadResult.events "simpleProjection" = true := by
  have h1 := claim_C7 hostEnv cacheWithSimple sampleAdapter "https://host/proj.js"
    "simpleProjection" hitResult rfl rfl
  have h2 := claim_C7 loadEnv [] sampleAdapter "https://host/proj.js"
    "simpleProjection" loadResult rfl rfl
  exact ⟨h1.1, h2.2.2 rfl rfl simpleFactory rfl⟩

/-- C8: the loading flag is monotonic: the constructor initializes it to
false, every operation either leaves it unchanged or flips it from false to
true, and once true it stays true across any sequence of operations. -/
theorem claim_C8 :
    (∀ ell name url, (initCustomProjection ell name url)._ready = false) ∧
    (∀ op s, (applyOp op s).1._ready = s.1._ready ∨
      (s.1._ready = false ∧ (applyOp op s).1._ready = true)) ∧
    (∀ ops s, s.1._ready = true →
      (List.foldl (fun t o => applyOp o t) s ops).1._ready = true) := by
  refine ⟨fun ell name url => rfl, applyOp_ready_cases, ?_⟩
  intro ops
  induction ops with
  | nil => exact fun s h => h
  | cons head tail ih =>
    intro s h
    exact ih _ (applyOp_mono head s h)

/-- C8 witness: a freshly initialized adapter is not ready, and a ready
adapter stays ready across a `project` call. -/
theorem claim_C8_witness :
    (initCustomProjection none "simpleProjection" "https://host/proj.js")._ready = false ∧
    (List.foldl (fun t o => applyOp o t) (readyAdapter, ([] : Cache), 0)
      [Op.projectOp none none]).1._ready = true :=
  ⟨claim_C8.1 none "simpleProjection" "https://host/proj.js",
    claim_C8.2.2 [Op.projectOp none none] (readyAdapter, [], 0) rfl⟩

/-- C9: `isEquatorialCylindrical` is the fixed value false, and the `url`
accessor returns the absolute form of the construction url — resolved at
construction time against the base URI — which differs from a relative url
as supplied. -/
theorem claim_C9 (env : Env) (cache : Cache) (url name : String)
    (ellipsoid : Option Ellipsoid) (cp : CustomProjection) (cache2 : Cache)
    (events : List Event)
    (h : customProjectionNew env cache (some url) (some name) ellipsoid =
      .ok (cp, cache2, events)) :
    cp.isEquatorialCylindrical = false ∧
    cp.url = getAbsoluteUri env.baseUri url ∧
    (hasScheme url = false → cp.url ≠ url) := by
  have hurl : cp.url = getAbsoluteUri env.baseUri url := by
    cases hue : url.isEmpty with
    | true => simp [customProjectionNew, checkTypeOfString, hue] at h
    | false =>
      cases hne : name.isEmpty with
      | true => simp [customProjectionNew, checkTypeOfString, hue, hne] at h
      | false =>
        simp only [customProjectionNew, checkTypeOfString, hue, hne] at h
        cases hb : buildCustomProjection env cache
            (initCustomProjection ellipsoid name (getAbsoluteUri env.baseUri url))
            (getAbsoluteUri env.baseUri url) name with
        | error e =>
          rw [hb] at h
          simp at h
        | ok r =>
          rw [hb] at h
          injection h with h3
          have hcp : ({ r.cp with _readyPromise := r.promise } : CustomProjection) = cp :=
            congrArg Prod.fst h3
          rw [← hcp]
          show r.cp._url = getAbsoluteUri env.baseUri url
          rw [build_url _ _ _ _ _ _ hb]
          rfl
  refine ⟨rfl, hurl, ?_⟩
  intro hsch
  rw [hurl]
  unfold getAbsoluteUri
  rw [hsch]
  simp only [Bool.false_eq_true, if_false]
  intro hcontra
  have hlen := congrArg String.length hcontra
  rw [String.length_append, String.length_append] at hlen
  have hone : ("/" : String).length = 1 := rfl
  omega

/-- C9 witness: a concrete construction from the relative url `proj.js`. -/
theorem claim_C9_witness :
    builtSample.isEquatorialCylindrical = false ∧
    builtSample.url = getAbsoluteUri "https://host" "proj.js" ∧
    builtSample.url ≠ "proj.js" := by
  have hc := claim_C9 hostEnv [] "proj.js" "simpleProjection" none builtSample []
    [Event.fetchJsonp "https://host/proj.js"] rfl
  exact ⟨hc.1, hc.2.1, hc.2.2 rfl⟩
